import Mathlib

/-!
Verification of the natural-language specification of the
`streamlit_app_personal` repository against a shallow embedding of its
Python sources.  Strings are embedded as `List Char`, pandas/GeoJSON rows
as structures of `Option`-valued cells (where `none` models a missing
value / NaN), Python `Decimal` values as coefficient–exponent pairs of
integers, and NumPy floating-point surfaces as functions into `ℚ` or `ℝ`.
Each definition carries a reference to the source file and lines it
embeds.
-/

/-! ### Python string primitives (shared by all scripts) -/

/-- Python `str` whitespace predicate used by `str.strip()` / `str.split()`
(ASCII whitespace; the scripts only ever feed ASCII or Latin-1 text). -/
def pySpace (c : Char) : Bool :=
  c = ' ' || c = '\t' || c = '\n' || c = '\r' || c = '\x0b' || c = '\x0c'

/-- Python `s.strip()`: drop leading and trailing whitespace. -/
def pyStrip (l : List Char) : List Char :=
  (((l.dropWhile pySpace).reverse).dropWhile pySpace).reverse

/-- Python `s.replace(a, b)` for single characters `a`, `b`. -/
def replaceChar (a b : Char) (l : List Char) : List Char :=
  l.map fun c => if c = a then b else c

/-- Python `s.replace("  ", " ")`: left-to-right non-overlapping
replacement of two spaces by one (urbano_mdr.py line 86-87). -/
def replaceTwoSpaces : List Char → List Char
  | ' ' :: ' ' :: rest => ' ' :: replaceTwoSpaces rest
  | c :: rest => c :: replaceTwoSpaces rest
  | [] => []

/-- Worker for `pySplitWs`; `acc` holds the current token reversed. -/
def splitWsAux : List Char → List Char → List (List Char)
  | [], acc => if acc = [] then [] else [acc.reverse]
  | c :: rest, acc =>
    if pySpace c then
      if acc = [] then splitWsAux rest [] else acc.reverse :: splitWsAux rest []
    else splitWsAux rest (c :: acc)

/-- Python `s.split()` (no separator argument): split on whitespace runs,
discarding empty tokens.  The composition
`' '.join(s.split())` followed by `split(' ')` in urbano_mdr.py lines
88-90 produces exactly these tokens whenever at least one token exists. -/
def pySplitWs (l : List Char) : List (List Char) :=
  splitWsAux l []

/-! ### Python `decimal.Decimal` (used by urbano_mdr.py) -/

/-- A finite Python `Decimal`: the value is `coeff * 10 ^ exp`. -/
structure PyDecimal where
  coeff : ℤ
  exp : ℤ
deriving DecidableEq

/-- Rational value denoted by a `PyDecimal`. -/
def pyValue (d : PyDecimal) : ℚ :=
  (d.coeff : ℚ) * (10 : ℚ) ^ d.exp

/-- Decimal digits to a natural number (most significant first). -/
def digitsToNat (l : List Char) : ℕ :=
  l.foldl (fun acc c => 10 * acc + (c.toNat - 48)) 0

/-- Parse an optional leading sign; returns `true` when negative. -/
def parseSign : List Char → Bool × List Char
  | '-' :: rest => (true, rest)
  | '+' :: rest => (false, rest)
  | l => (false, l)

/-- Parse the exponent digits after `e`/`E` of a `Decimal` literal. -/
def parseExpTail (l : List Char) : Option (ℤ × List Char) :=
  let (eneg, r1) := parseSign l
  let ds := r1.takeWhile Char.isDigit
  if ds = [] then none
  else some ((if eneg then -(digitsToNat ds : ℤ) else (digitsToNat ds : ℤ)),
             r1.dropWhile Char.isDigit)

/-- Parse the optional exponent part of a `Decimal` literal. -/
def parseExpPart : List Char → Option (ℤ × List Char)
  | 'e' :: rest => parseExpTail rest
  | 'E' :: rest => parseExpTail rest
  | l => some (0, l)

/-- A Python `Decimal` value: finite (a coefficient–exponent pair), a
signed infinity, or a NaN — quiet or signaling — with a sign and a
numeric diagnostic payload. -/
inductive PyDecValue where
  | finite (d : PyDecimal)
  | infinity (neg : Bool)
  | nan (signaling : Bool) (neg : Bool) (payload : ℕ)
deriving DecidableEq

/-- The `Decimal` constructor removes every underscore before parsing
(CPython: `value.strip().replace("_", "")`). -/
def stripUnderscores (l : List Char) : List Char :=
  l.filter fun c => decide (c ≠ '_')

/-- Recognise the (already lowercased) `nan` / `snan` keyword of the
numeric-string grammar; returns the signaling flag and the remaining
diagnostic digits. -/
def nanTail : List Char → Option (Bool × List Char)
  | 's' :: 'n' :: 'a' :: 'n' :: rest => some (true, rest)
  | 'n' :: 'a' :: 'n' :: rest => some (false, rest)
  | _ => none

/-- The finite branch of the numeric-string grammar, after the sign:
`digits [. digits] [(e|E) [sign] digits]`, requiring at least one
coefficient digit and no trailing garbage. -/
def parseFiniteCore (l1 : List Char) (neg : Bool) : Option PyDecimal :=
  let intPart := l1.takeWhile Char.isDigit
  let l2 := l1.dropWhile Char.isDigit
  let fracPart :=
    match l2 with
    | '.' :: rest => rest.takeWhile Char.isDigit
    | _ => []
  let l3 :=
    match l2 with
    | '.' :: rest => rest.dropWhile Char.isDigit
    | _ => l2
  if intPart = [] ∧ fracPart = [] then none
  else
    match parseExpPart l3 with
    | none => none
    | some (e, rest) =>
      if rest = [] then
        some { coeff := (if neg then -(digitsToNat (intPart ++ fracPart) : ℤ)
                         else (digitsToNat (intPart ++ fracPart) : ℤ)),
               exp := e - fracPart.length }
      else none

/-- The `decimal.Decimal(s)` constructor on a stripped string: after
underscore removal, the case-insensitive numeric-string grammar
`[sign] (digits [. digits] [(e|E) [sign] digits] | Inf | Infinity |
[s]NaN digits*)`; any other input raises `InvalidOperation`, embedded as
`none`.  The NaN payload is the diagnostic digits read as a number
(CPython stores `str(int(diag or '0'))`). -/
def parseDecimalString (l0 : List Char) : Option PyDecValue :=
  let l := stripUnderscores l0
  let (neg, l1) := parseSign l
  let low := l1.map Char.toLower
  if low = "inf".data ∨ low = "infinity".data then
    some (.infinity neg)
  else
    match nanTail low with
    | some (signaling, diag) =>
      if diag.all Char.isDigit then some (.nan signaling neg (digitsToNat diag))
      else none
    | none => (parseFiniteCore l1 neg).map PyDecValue.finite

/-- `ROUND_HALF_UP`: round to the nearest integer, ties away from zero. -/
def roundHalfUp (q : ℚ) : ℤ :=
  if 0 ≤ q then ⌊q + 1 / 2⌋ else -⌊-q + 1 / 2⌋

/-- `d.quantize(Decimal('0.000001'), rounding=ROUND_HALF_UP)` under the
default decimal context (precision 28), on every kind of operand
(urbano_mdr.py lines 55, 66-70): a finite result has exponent `-6`, and
when its rounded coefficient would carry more than 28 digits the
operation raises `InvalidOperation` (`none`); an infinity or a
signaling NaN raises `InvalidOperation`; a quiet NaN propagates
quietly, its payload reduced to its last 28 digits. -/
def quantize6 : PyDecValue → Option PyDecValue
  | .finite d =>
    let c := roundHalfUp (pyValue d * 10 ^ 6)
    if c.natAbs < 10 ^ 28 then some (.finite ⟨c, -6⟩) else none
  | .infinity _ => none
  | .nan true _ _ => none
  | .nan false neg payload => some (.nan false neg (payload % 10 ^ 28))

/-! ### urbano_mdr.py: coordinate parsing and the CRUD form -/

/-- `parse_coord` (urbano_mdr.py lines 57-70): `None`/empty guard, strip,
comma→period and U+2212→hyphen substitution, `Decimal` parse, quantize to
six decimal places. -/
def parse_coord (value : Option (List Char)) : Option PyDecValue :=
  match value with
  | none => none
  | some v =>
    if v = [] then none
    else
      let s := pyStrip v
      if s = [] then none
      else
        let s2 := replaceChar '−' '-' (replaceChar ',' '.' s)
        match parseDecimalString s2 with
        | none => none
        | some d => quantize6 d

/-- `parse_coords_combined` (urbano_mdr.py lines 72-96): replace each of
`','`, `';'`, `'|'`, tab, and double-space by a space, compact whitespace,
split, and parse the first two tokens. -/
def parse_coords_combined (value : Option (List Char)) :
    Option PyDecValue × Option PyDecValue :=
  match value with
  | none => (none, none)
  | some v =>
    if v = [] then (none, none)
    else
      let s := pyStrip v
      if s = [] then (none, none)
      else
        let s1 := replaceTwoSpaces (replaceChar '\t' ' '
          (replaceChar '|' ' ' (replaceChar ';' ' ' (replaceChar ',' ' ' s))))
        match pySplitWs s1 with
        | p0 :: p1 :: _ => (parse_coord (some p0), parse_coord (some p1))
        | _ => (none, none)

/-- A row of the `solicitacoes` table as built by `enviar_formulario`
(urbano_mdr.py lines 115-128, 175-183); `foto_path` is omitted because the
upload path depends only on the filesystem, not on the claims below. -/
structure SolicitacaoRow where
  rua : List Char
  numero : List Char
  bairro : List Char
  latitude : Option PyDecValue
  longitude : Option PyDecValue
  situacoes : Option (List Char)
deriving DecidableEq

/-- The data of a POST to `/enviar` (urbano_mdr.py lines 145-156):
missing form fields arrive as `None`. -/
structure UrbanoForm where
  nome_rua : Option (List Char)
  numero : Option (List Char)
  bairro : Option (List Char)
  coordenadas : Option (List Char)
  latitude : Option (List Char)
  longitude : Option (List Char)
  situacao : List (List Char)
deriving DecidableEq

/-- Outcome of `enviar_formulario`: either a row is inserted and committed,
or the request is redirected with a validation error and nothing is
inserted. -/
inductive EnvioResult where
  | inserted (row : SolicitacaoRow)
  | validationError
deriving DecidableEq

/-- `','.join(situacoes_list) if situacoes_list else None`
(urbano_mdr.py line 157). -/
def situacoesStr (l : List (List Char)) : Option (List Char) :=
  if l = [] then none else some (List.intercalate [','] l)

/-- `enviar_formulario` (urbano_mdr.py lines 143-192): strip the three
required fields, parse coordinates (combined field first, then the
separate fields), and insert only when street name, number and
neighbourhood are all non-empty; otherwise flash an error and redirect. -/
def enviar_formulario (f : UrbanoForm) : EnvioResult :=
  let nome_rua := pyStrip (f.nome_rua.getD [])
  let numero := pyStrip (f.numero.getD [])
  let bairro := pyStrip (f.bairro.getD [])
  let latlon := parse_coords_combined f.coordenadas
  let latlon :=
    if latlon.1 = none ∧ latlon.2 = none then
      (parse_coord f.latitude, parse_coord f.longitude)
    else latlon
  if nome_rua = [] ∨ numero = [] ∨ bairro = [] then
    .validationError
  else
    .inserted ⟨nome_rua, numero, bairro, latlon.1, latlon.2, situacoesStr f.situacao⟩

/-! ### agro.py: interpolation with method-name fallback -/

/-- `interp_with_fallback` (agro.py lines 158-169): call `scipy.griddata`
with the given method name; a raised exception is embedded as
`Except.error` carrying `str(e)`, a successful surface as `Except.ok`.
The function returns the `(zi, method, err)` triple of the source. -/
def interp_with_fallback {S : Type} (griddata : String → Except String S)
    (method : String) : Option S × String × Option String :=
  match griddata method with
  | .ok zi => (some zi, method, none)
  | .error e => (none, method, some e)

/-- The fallback chain around `interp_with_fallback`
(agro.py lines 171-184): try the selected method; on failure try
`"linear"` unless it was the selected method; on failure try
`"nearest"`; if everything failed, show the error and stop
(result `none`).  Returns the surface with the method that produced it,
plus the last error message. -/
def interpolationPipeline {S : Type} (griddata : String → Except String S)
    (metodo : String) : Option (S × String) × Option String :=
  let r := interp_with_fallback griddata metodo
  let r :=
    if r.1.isNone then
      let r1 := if metodo ≠ "linear" then interp_with_fallback griddata "linear" else r
      if r1.1.isNone then interp_with_fallback griddata "nearest" else r1
    else r
  match r with
  | (some z, used, err) => (some (z, used), err)
  | (none, _, err) => (none, err)

/-- Specification-side list of the interpolation methods the pipeline
attempts, in order, for a given selected method (from the spec's words:
retry with `linear` when the selected method is not already `linear`,
then with `nearest`). -/
def attemptedMethods (metodo : String) : List String :=
  if metodo = "linear" then [metodo, "nearest"] else [metodo, "linear", "nearest"]

/-- Specification-side first-success scan: the result of the first method
in the list on which `griddata` does not raise. -/
def firstSuccess {S : Type} (griddata : String → Except String S) :
    List String → Option (S × String)
  | [] => none
  | m :: ms =>
    match griddata m with
    | .ok z => some (z, m)
    | .error _ => firstSuccess griddata ms

/-! ### agro3.py / agro.py: filter, cleaning, aggregation, statistics -/

/-- The string `'Todos'` of the talhão selectbox. -/
def todosStr : List Char := "Todos".data

/-- Boolean prefix test on character lists. -/
def isPrefixOfB : List Char → List Char → Bool
  | [], _ => true
  | _ :: _, [] => false
  | a :: as, b :: bs => a = b && isPrefixOfB as bs

/-- Boolean substring test on character lists. -/
def substringB (pat : List Char) : List Char → Bool
  | [] => isPrefixOfB pat []
  | c :: rest => isPrefixOfB pat (c :: rest) || substringB pat rest

/-- `pandas.Series.str.contains(pat, case=False, na=False)` on a plain
(regex-metacharacter-free) pattern: case-insensitive substring test
(agro3.py line 101, agro.py line 91, agro3.py line 139). -/
def containsCI (pat s : List Char) : Bool :=
  substringB (pat.map Char.toLower) (s.map Char.toLower)

/-- A row of `dados_agro.xlsx` restricted to the columns the claims use:
the talhão (as a string, after `astype(str)`), and the latitude,
longitude and selected-element cells after `pd.to_numeric(...,
errors='coerce')`, where `none` models NaN. -/
structure AgroRow where
  talhao : List Char
  lat : Option ℚ
  lon : Option ℚ
  val : Option ℚ
deriving DecidableEq

/-- `df_filtrado` (agro3.py lines 98-101, agro.py lines 87-91): keep all
rows for `'Todos'`, otherwise keep the rows whose talhão contains the
selected one case-insensitively. -/
def df_filtrado (rows : List AgroRow) (sel : List Char) : List AgroRow :=
  if sel = todosStr then rows
  else rows.filter fun r => containsCI sel r.talhao

/-- `df_clean` projected to `(Latitude, Longitude, element)` triples
(agro3.py lines 108-111, agro.py lines 101-110): drop every row in which
any of the three cells is NaN. -/
def cleanPoints (rows : List AgroRow) : List (ℚ × ℚ × ℚ) :=
  rows.filterMap fun r =>
    match r.lat, r.lon, r.val with
    | some a, some o, some v => some (a, o, v)
    | _, _, _ => none

/-- The `groupby` key of `df_agregado`: the `(Latitude, Longitude)` pair. -/
def aggKey (p : ℚ × ℚ × ℚ) : ℚ × ℚ := (p.1, p.2.1)

/-- The element value of a cleaned point. -/
def aggVal (p : ℚ × ℚ × ℚ) : ℚ := p.2.2

/-- The mean of the element values of the cleaned points sharing a
coordinate pair (`groupby([lat, lon]).mean()`, agro3.py line 116,
agro.py lines 117-121). -/
def groupMean (pts : List (ℚ × ℚ × ℚ)) (k : ℚ × ℚ) : ℚ :=
  let vs := (pts.filter fun p => decide (aggKey p = k)).map aggVal
  vs.sum / (vs.length : ℚ)

/-- The element column of `df_agregado`: one mean per distinct coordinate
pair.  (pandas sorts the group keys; the dashboards only feed this list
to the permutation-invariant statistics below, so the keys are taken in
first-occurrence order here.) -/
def valoresAgregados (pts : List (ℚ × ℚ × ℚ)) : List ℚ :=
  ((pts.map aggKey).dedup).map (groupMean pts)

/-- `valores = df_agregado[elemento_selecionado].values`
(agro3.py line 122, agro.py line 127), as a function of the loaded rows
and the selected talhão. -/
def valores (rows : List AgroRow) (sel : List Char) : List ℚ :=
  valoresAgregados (cleanPoints (df_filtrado rows sel))

/-- The `📊 Pontos válidos` metric: `len(df_agregado)`
(agro3.py line 123, agro.py line 128). -/
def pontosValidos (rows : List AgroRow) (sel : List Char) : ℕ :=
  (valores rows sel).length

/-- `np.nanmax` on a NaN-free value list (0 on the empty list, which the
dashboards rule out before displaying the metrics). -/
def nanmaxL : List ℚ → ℚ
  | [] => 0
  | x :: xs => xs.foldl max x

/-- `np.nanmin` on a NaN-free value list. -/
def nanminL : List ℚ → ℚ
  | [] => 0
  | x :: xs => xs.foldl min x

/-- `np.nanmean` on a NaN-free value list. -/
def nanmeanL (l : List ℚ) : ℚ :=
  l.sum / (l.length : ℚ)

/-- The square of `np.nanstd` (population standard deviation) on a
NaN-free value list; the square keeps the statistic inside `ℚ` and
determines the displayed standard deviation uniquely. -/
def nanstdSq (l : List ℚ) : ℚ :=
  ((l.map fun x => (x - nanmeanL l) ^ 2).sum) / (l.length : ℚ)

/-! ### agro3.py: polygon mask over the interpolation grid -/

/-- `usar_mascara` (agro3.py line 135): mask only when the shapefile
loaded (`gdf_talhoes is not None`) and a specific talhão is selected. -/
def usar_mascara (shapefileLoaded : Bool) (sel : List Char) : Bool :=
  shapefileLoaded && decide (sel ≠ todosStr)

/-- The mask at one grid point (agro3.py lines 159-162):
`shapely.vectorized.contains(poly, lon, lat)` when masking is on and the
polygon exists, else the all-ones mask.  The polygon is embedded as its
point-containment predicate. -/
def maskAt (um : Bool) (poly : Option (ℚ → ℚ → Bool)) (lon lat : ℚ) : Bool :=
  match um, poly with
  | true, some inPoly => inPoly lon lat
  | _, _ => true

/-- `z_masked = np.where(mask, z, np.nan)` at one grid point
(agro3.py line 198); `none` models NaN. -/
def z_masked (um : Bool) (poly : Option (ℚ → ℚ → Bool))
    (z : ℚ → ℚ → ℚ) (lon lat : ℚ) : Option ℚ :=
  if maskAt um poly lon lat then some (z lon lat) else none

/-! ### agro3.py: hand-written IDW interpolation -/

/-- The inverse-distance weight of one sample point `(x, y, z)` at the
grid point `(xi, yi)` (agro3.py lines 172-173):
`1 / (sqrt((xi-x)^2 + (yi-y)^2) + eps) ^ power`. -/
noncomputable def idwWeight (xi yi : ℝ) (power : ℕ) (eps : ℝ)
    (p : ℝ × ℝ × ℝ) : ℝ :=
  1 / (Real.sqrt ((xi - p.1) ^ 2 + (yi - p.2.1) ^ 2) + eps) ^ power

/-- `idw_interpolation` (agro3.py lines 167-175) at one grid point:
`sum(w * z) / sum(w)` over the sample points, with the `x`, `y`, `z`
arrays zipped into one list of triples. -/
noncomputable def idw_interpolation (pts : List (ℝ × ℝ × ℝ))
    (xi yi : ℝ) (power : ℕ) (eps : ℝ) : ℝ :=
  (pts.map fun p => idwWeight xi yi power eps p * p.2.2).sum /
    (pts.map (idwWeight xi yi power eps)).sum

/-! ### ac_agua7.py / ac_drenagem8.py: PMSB dashboards -/

/-- The string `'Todas'` of the area selectbox. -/
def todasStr : List Char := "Todas".data

/-- The sentinel label for missing categorical values. -/
def naoInformado : List Char := "Não informado".data

/-- A loaded PMSB row restricted to the two filter columns, which both
loaders guarantee to be non-missing strings (`AREA_y`, `BAIRRO_COM`). -/
structure PmsbRow where
  area : List Char
  bairro : List Char
deriving DecidableEq

/-- The dependent neighbourhood dropdown (ac_agua7.py lines 51-54,
ac_drenagem8.py lines 146-151): for a specific area, the distinct
`BAIRRO_COM` values of the rows with that `AREA_y`; for `'Todas'`, the
distinct `BAIRRO_COM` values of the whole dataset.  (`.unique()` keeps
first occurrences; the widgets sort the list for display, which leaves
its members unchanged.) -/
def bairros_disponiveis (rows : List PmsbRow) (area : List Char) :
    List (List Char) :=
  if area ≠ todasStr then
    ((rows.filter fun r => decide (r.area = area)).map PmsbRow.bairro).dedup
  else (rows.map PmsbRow.bairro).dedup

/-- The PMSB row filter (ac_agua7.py lines 60-64, ac_drenagem8.py lines
158-162): equality on `AREA_y` unless `'Todas'`, then membership of
`BAIRRO_COM` in the multiselect when it is non-empty. -/
def pmsbFilter (rows : List PmsbRow) (area : List Char)
    (bairrosSel : List (List Char)) : List PmsbRow :=
  let d1 := if area = todasStr then rows
            else rows.filter fun r => decide (r.area = area)
  if bairrosSel = [] then d1
  else d1.filter fun r => decide (r.bairro ∈ bairrosSel)

/-! ### Loaders (ac_agua7.py, ac_drenagem8.py, agro.py, agro3.py) -/

/-- A raw feature of `BD_CONSUMO_AGUA_AC.geojson` restricted to the
columns `load_poligonos` touches plus one representative chart column;
`none` models a missing value. -/
structure AguaRow where
  area : Option (List Char)
  bairro : Option (List Char)
  labelQ5 : Option (List Char)
deriving DecidableEq

/-- The same feature after `load_poligonos`. -/
structure AguaRowLoaded where
  area : List Char
  bairro : List Char
  labelQ5 : Option (List Char)
deriving DecidableEq

/-- `load_poligonos` (ac_agua7.py lines 31-38) on one feature: fill
missing `AREA_y` and `BAIRRO_COM` with the sentinel; every other column
(here `LABEL_Q5`) passes through unchanged. -/
def load_poligonos_row (r : AguaRow) : AguaRowLoaded :=
  { area := r.area.getD naoInformado
    bairro := r.bairro.getD naoInformado
    labelQ5 := r.labelQ5 }

/-- A raw feature of the drainage GeoJSON restricted to the eight
`text_cols` of `load_data` (ac_drenagem8.py line 114). -/
structure DrenRow where
  area : Option (List Char)
  bairro : Option (List Char)
  label21 : Option (List Char)
  labelQ22 : Option (List Char)
  labelQ23 : Option (List Char)
  labelQ24 : Option (List Char)
  labelQ25 : Option (List Char)
  labelQ26 : Option (List Char)
deriving DecidableEq

/-- The same feature after `load_data`: every text column is a string. -/
structure DrenRowLoaded where
  area : List Char
  bairro : List Char
  label21 : List Char
  labelQ22 : List Char
  labelQ23 : List Char
  labelQ24 : List Char
  labelQ25 : List Char
  labelQ26 : List Char
deriving DecidableEq

/-- `fillna("Não informado")` on one cell. -/
def fillNI (v : Option (List Char)) : List Char :=
  v.getD naoInformado

/-- `load_data` (ac_drenagem8.py lines 113-118) on one feature:
`fillna("Não informado").astype(str)` on each of the eight text
columns (a column missing from the frame entirely is a row of `none`s). -/
def load_data_row (r : DrenRow) : DrenRowLoaded :=
  { area := fillNI r.area
    bairro := fillNI r.bairro
    label21 := fillNI r.label21
    labelQ22 := fillNI r.labelQ22
    labelQ23 := fillNI r.labelQ23
    labelQ24 := fillNI r.labelQ24
    labelQ25 := fillNI r.labelQ25
    labelQ26 := fillNI r.labelQ26 }

/-- `df.columns = [c.strip() for c in df.columns]` in the Excel loaders
(agro.py lines 24-28, agro3.py lines 52-56). -/
def strippedColumns (cols : List (List Char)) : List (List Char) :=
  cols.map pyStrip

/-! ### Specification-side value sets and concrete demonstration data -/

/-- The value set of a PostgreSQL `NUMERIC(9, 6)` column (urbano_mdr.py
lines 124-125, 232-233): scale six and at most nine significant digits,
i.e. an absolute value of at most `999.999999`. -/
def fitsNumeric96 (d : PyDecimal) : Prop :=
  d.exp = -6 ∧ d.coeff.natAbs ≤ 999999999

instance (d : PyDecimal) : Decidable (fitsNumeric96 d) := by
  unfold fitsNumeric96; infer_instance

/-- Specification-side predicate (from the spec's words): `loaded` is
`orig` with a missing value replaced by the sentinel — so `loaded` is
never missing, and each originally missing entry equals
`'Não informado'`. -/
def fillsWith (orig : Option (List Char)) (loaded : List Char) : Prop :=
  (orig = none → loaded = naoInformado) ∧ ∀ v, orig = some v → loaded = v

/-- Demonstration dataset with two rows sharing a coordinate pair. -/
def exRows : List AgroRow :=
  [⟨"T1".data, some 0, some 0, some 0⟩,
   ⟨"T1".data, some 0, some 0, some 2⟩,
   ⟨"T1".data, some 1, some 1, some 1⟩]

/-- Demonstration dataset with pairwise distinct coordinate pairs. -/
def exRowsDistinct : List AgroRow :=
  [⟨"T1".data, some 0, some 0, some 3⟩,
   ⟨"T2".data, some 1, some 1, some 5⟩]

/-- Demonstration PMSB dataset. -/
def pmsbRowsEx : List PmsbRow :=
  [⟨"Sede".data, "Centro".data⟩, ⟨"Rural".data, "Arapiranga".data⟩]

/-- Demonstration PMSB dataset for the dropdown claim. -/
def pmsbRowsEx2 : List PmsbRow :=
  [⟨"Sede".data, "Centro".data⟩, ⟨"Sede".data, "Aracu".data⟩,
   ⟨"Rural".data, "Arapiranga".data⟩]

/-- A complete demonstration submission of the urbano_mdr form. -/
def formEx : UrbanoForm :=
  ⟨some " Rua A ".data, some "12".data, some "Centro".data,
   some "-2.1, -47.5".data, none, none, ["buraco".data]⟩

/-- The row `enviar_formulario` inserts for `formEx`. -/
def insertedRowEx : SolicitacaoRow :=
  ⟨"Rua A".data, "12".data, "Centro".data,
   some (.finite ⟨-2100000, -6⟩), some (.finite ⟨-47500000, -6⟩),
   some "buraco".data⟩

/-! ### Theorems -/

attribute [local semireducible] Rat.mul Rat.add Rat.inv Rat.sub Rat.ofScientific

set_option maxRecDepth 400000 in
/-- C1: the claim that `parse_coords_combined` is delimiter-robust even
when the numbers use a comma as decimal separator fails on the code:
on the docstring's own example `"-2,053655; -47,549849"` the decimal
commas are consumed as pair delimiters, yielding `(-2.000000,
53655.000000)` instead of the `(-2.053655, -47.549849)` obtained from
`"-2.053655, -47.549849"`. -/
theorem parse_coords_combined_comma_decimal_divergence :
    parse_coords_combined (some "-2,053655; -47,549849".data)
      = (some (.finite ⟨-2000000, -6⟩), some (.finite ⟨53655000000, -6⟩))
    ∧ parse_coords_combined (some "-2.053655, -47.549849".data)
      = (some (.finite ⟨-2053655, -6⟩), some (.finite ⟨-47549849, -6⟩))
    ∧ parse_coords_combined (some "-2,053655; -47,549849".data)
      ≠ parse_coords_combined (some "-2.053655, -47.549849".data) :=
  ⟨by decide, by decide, by decide⟩

/-- Auxiliary: `firstSuccess` returns `none` exactly when `griddata`
raises on every method of the list. -/
theorem firstSuccess_eq_none_iff {S : Type} (g : String → Except String S) :
    ∀ l : List String, firstSuccess g l = none ↔ ∀ m ∈ l, ∃ e, g m = .error e := by
  intro l
  induction l with
  | nil => simp [firstSuccess]
  | cons m ms ih =>
    cases h : g m <;> simp [firstSuccess, h, ih]

/-- C2: the interpolation pipeline of agro.py tries the selected method,
then `linear` (unless already selected), then `nearest`; it returns the
surface of the first method that succeeds together with that method's
name, and it ends in the error branch exactly when every attempted
method raises. -/
theorem interpolation_fallback_chain {S : Type}
    (g : String → Except String S) (m0 : String) :
    (interpolationPipeline g m0).1 = firstSuccess g (attemptedMethods m0)
    ∧ ((interpolationPipeline g m0).1 = none ↔
        ∀ m ∈ attemptedMethods m0, ∃ e, g m = .error e) := by
  have key : (interpolationPipeline g m0).1 = firstSuccess g (attemptedMethods m0) := by
    by_cases h0 : m0 = "linear"
    · subst h0
      cases h1 : g "linear" <;> cases h2 : g "nearest" <;>
        simp [interpolationPipeline, interp_with_fallback, firstSuccess,
              attemptedMethods, h1, h2]
    · cases h1 : g m0 <;> cases h2 : g "linear" <;> cases h3 : g "nearest" <;>
        simp [interpolationPipeline, interp_with_fallback, firstSuccess,
              attemptedMethods, h0, h1, h2, h3]
  exact ⟨key, key ▸ firstSuccess_eq_none_iff g (attemptedMethods m0)⟩

/-- Auxiliary: the head of `dropWhile p l` does not satisfy `p`. -/
theorem dropWhile_head?_not {α : Type} (p : α → Bool) (l : List α) :
    ∀ x, (l.dropWhile p).head? = some x → p x = false := by
  induction l with
  | nil => intro x h; simp at h
  | cons c cs ih =>
    intro x h
    rw [List.dropWhile_cons] at h
    by_cases hc : p c
    · rw [if_pos hc] at h; exact ih x h
    · rw [if_neg hc] at h
      simp only [List.head?_cons, Option.some.injEq] at h
      subst h
      exact Bool.of_not_eq_true hc

/-- Auxiliary: stripping yields the empty string exactly on all-whitespace
input. -/
theorem pyStrip_eq_nil_iff (l : List Char) :
    pyStrip l = [] ↔ l.all pySpace = true := by
  unfold pyStrip
  rw [List.reverse_eq_nil_iff, List.dropWhile_eq_nil_iff, List.all_eq_true]
  constructor
  · intro h x hx
    rcases List.mem_append.mp
        ((List.takeWhile_append_dropWhile (p := pySpace) (l := l)) ▸ hx) with h1 | h1
    · exact List.mem_takeWhile_imp h1
    · exact h x (List.mem_reverse.mpr h1)
  · intro h x hx
    exact h x ((List.dropWhile_sublist pySpace).mem (List.mem_reverse.mp hx))

/-- Auxiliary: the value of a `PyDecimal` with exponent `-6`. -/
theorem pyValue_exp_neg6 (c : ℤ) : pyValue ⟨c, -6⟩ = (c : ℚ) / 10 ^ 6 := by
  show (c : ℚ) * (10 : ℚ) ^ (-6 : ℤ) = (c : ℚ) / 10 ^ 6
  rw [show ((-6 : ℤ)) = -((6 : ℕ) : ℤ) by norm_num, zpow_neg, zpow_natCast,
      div_eq_mul_inv]

/-- Auxiliary: a six-decimal value fits `NUMERIC(9,6)` exactly when its
magnitude is below `1000`. -/
theorem fitsNumeric96_iff_lt (c : ℤ) :
    fitsNumeric96 ⟨c, -6⟩ ↔ |pyValue ⟨c, -6⟩| < 1000 := by
  rw [pyValue_exp_neg6]
  have h10 : (0 : ℚ) < 10 ^ 6 := by positivity
  have habs : |(c : ℚ)| = ((c.natAbs : ℕ) : ℚ) := by
    rw [Int.cast_natAbs, Int.cast_abs]
  rw [show fitsNumeric96 ⟨c, -6⟩ ↔ c.natAbs ≤ 999999999 by
        unfold fitsNumeric96; simp,
      abs_div, abs_of_pos h10, div_lt_iff₀ h10, habs,
      show (1000 : ℚ) * 10 ^ 6 = ((10 ^ 9 : ℕ) : ℚ) by norm_num,
      Nat.cast_lt]
  omega

/-- C10 (amended): whenever `parse_coord` returns a value it is either
the parsed finite decimal quantized to exactly six decimal places with
`ROUND_HALF_UP` (exponent `-6`, coefficient the half-up rounding of
`10^6` times the parsed value, fitting `NUMERIC(9,6)` exactly when its
magnitude is below `1000`) or — when the input is a quiet-NaN literal —
that quiet NaN propagated through quantize (payload reduced to its last
28 digits); `parse_coord` returns `None` exactly when the input is
`None`, empty or whitespace-only, when the substituted string does not
parse as a decimal numeric string, or when quantization raises
`InvalidOperation` — which happens precisely on an infinity, on a
signaling NaN, or on a finite value whose six-decimal quantization
overflows the 28-digit context precision. -/
theorem parse_coord_quantization (v : Option (List Char)) :
    (∀ w, parse_coord v = some w →
      ∃ s, v = some s ∧
        ((∃ d₀ dq, parseDecimalString (replaceChar '−' '-'
              (replaceChar ',' '.' (pyStrip s))) = some (.finite d₀)
            ∧ w = .finite dq
            ∧ dq.exp = -6
            ∧ dq.coeff = roundHalfUp (pyValue d₀ * 10 ^ 6)
            ∧ pyValue dq = (dq.coeff : ℚ) / 10 ^ 6
            ∧ (fitsNumeric96 dq ↔ |pyValue dq| < 1000))
         ∨ (∃ neg payload, parseDecimalString (replaceChar '−' '-'
              (replaceChar ',' '.' (pyStrip s))) = some (.nan false neg payload)
            ∧ w = .nan false neg (payload % 10 ^ 28))))
    ∧ (parse_coord v = none ↔
        v = none ∨ ∃ s, v = some s ∧
          (s.all pySpace = true
           ∨ parseDecimalString (replaceChar '−' '-'
               (replaceChar ',' '.' (pyStrip s))) = none
           ∨ ∃ u, parseDecimalString (replaceChar '−' '-'
                 (replaceChar ',' '.' (pyStrip s))) = some u
               ∧ quantize6 u = none))
    ∧ (∀ u, quantize6 u = none ↔
        ((∃ b, u = .infinity b)
         ∨ (∃ b p, u = .nan true b p)
         ∨ (∃ d₀, u = .finite d₀
              ∧ 10 ^ 28 ≤ (roundHalfUp (pyValue d₀ * 10 ^ 6)).natAbs))) := by
  refine ⟨?_, ?_, ?_⟩
  · intro w h
    cases v with
    | none => simp [parse_coord] at h
    | some s =>
      refine ⟨s, rfl, ?_⟩
      simp only [parse_coord] at h
      by_cases hnil : s = []
      · rw [if_pos hnil] at h
        exact absurd h (by simp)
      · rw [if_neg hnil] at h
        by_cases hstrip : pyStrip s = []
        · rw [if_pos hstrip] at h
          exact absurd h (by simp)
        · rw [if_neg hstrip] at h
          cases hp : parseDecimalString (replaceChar '−' '-'
              (replaceChar ',' '.' (pyStrip s))) with
          | none => rw [hp] at h; exact absurd h (by simp)
          | some u =>
            rw [hp] at h
            cases u with
            | finite d₀ =>
              simp only [quantize6] at h
              by_cases hfit :
                  (roundHalfUp (pyValue d₀ * 10 ^ 6)).natAbs < 10 ^ 28
              · rw [if_pos hfit] at h
                injection h with h
                subst h
                exact Or.inl ⟨d₀, _, rfl, rfl, rfl, rfl,
                  pyValue_exp_neg6 _, fitsNumeric96_iff_lt _⟩
              · rw [if_neg hfit] at h
                exact absurd h (by simp)
            | infinity b =>
              simp only [quantize6] at h
              exact absurd h (by simp)
            | nan sig b pay =>
              cases sig with
              | true =>
                simp only [quantize6] at h
                exact absurd h (by simp)
              | false =>
                simp only [quantize6] at h
                injection h with h
                subst h
                exact Or.inr ⟨b, pay, rfl, rfl⟩
  · cases v with
    | none => simp [parse_coord]
    | some s =>
      by_cases hstrip : pyStrip s = []
      · have hall : s.all pySpace = true := (pyStrip_eq_nil_iff s).mp hstrip
        have hlhs : parse_coord (some s) = none := by
          simp only [parse_coord]
          by_cases hnil : s = []
          · rw [if_pos hnil]
          · rw [if_neg hnil, if_pos hstrip]
        exact iff_of_true hlhs (Or.inr ⟨s, rfl, Or.inl hall⟩)
      · have hne : s ≠ [] := fun hh => hstrip (by rw [hh]; rfl)
        have hall : ¬ s.all pySpace = true :=
          fun hh => hstrip ((pyStrip_eq_nil_iff s).mpr hh)
        simp only [parse_coord, if_neg hne, if_neg hstrip]
        cases hp : parseDecimalString (replaceChar '−' '-'
            (replaceChar ',' '.' (pyStrip s))) with
        | none =>
          exact iff_of_true rfl (Or.inr ⟨s, rfl, Or.inr (Or.inl hp)⟩)
        | some u =>
          constructor
          · intro hq
            exact Or.inr ⟨s, rfl, Or.inr (Or.inr ⟨u, hp, hq⟩)⟩
          · rintro (hc | ⟨s', hs', hc⟩)
            · exact absurd hc (by simp)
            · injection hs' with hs'
              subst hs'
              rcases hc with hc | hc | ⟨u', hu', hq⟩
              · exact absurd hc hall
              · rw [hp] at hc
                exact absurd hc (by simp)
              · rw [hp] at hu'
                injection hu' with hu'
                subst hu'
                exact hq
  · intro u
    cases u with
    | finite d₀ =>
      simp only [quantize6]
      by_cases hfit : (roundHalfUp (pyValue d₀ * 10 ^ 6)).natAbs < 10 ^ 28
      · rw [if_pos hfit]
        constructor
        · intro hc
          exact absurd hc (by simp)
        · rintro (⟨b, hb⟩ | ⟨b, pay, hb⟩ | ⟨d', hd, hle⟩)
          · exact absurd hb (by simp)
          · exact absurd hb (by simp)
          · injection hd with hd
            subst hd
            exact absurd hle (not_le.mpr hfit)
      · rw [if_neg hfit]
        constructor
        · intro _
          exact Or.inr (Or.inr ⟨d₀, rfl, le_of_not_lt hfit⟩)
        · intro _
          rfl
    | infinity b =>
      simp only [quantize6]
      exact iff_of_true trivial (Or.inl ⟨b, rfl⟩)
    | nan sig b pay =>
      cases sig with
      | true =>
        simp only [quantize6]
        exact iff_of_true trivial (Or.inr (Or.inl ⟨b, pay, rfl⟩))
      | false =>
        simp only [quantize6]
        constructor
        · intro hc
          exact absurd hc (by simp)
        · rintro (⟨b', hb⟩ | ⟨b', p', hb⟩ | ⟨d', hd, _⟩)
          · exact absurd hb (by simp)
          · exact absurd hb (by simp)
          · exact absurd hd (by simp)

set_option maxRecDepth 400000 in
/-- C10 counterexample to the claim as stated: `"nan"` makes
`parse_coord` return a quiet NaN — a value that is not a six-decimal
quantized number; `"1e100"` parses as a decimal literal yet
`parse_coord` returns `None` (quantization overflows the context
precision); `"12345"` yields a six-decimal value whose magnitude
exceeds the capacity of `NUMERIC(9,6)`; and the underscore-grouped
`"1_5"` is accepted and yields `15.000000`. -/
theorem parse_coord_claim_counterexample :
    (parse_coord (some "nan".data) = some (.nan false false 0)
      ∧ ∀ d : PyDecimal, (PyDecValue.nan false false 0) ≠ .finite d)
    ∧ (parse_coord (some "1e100".data) = none
      ∧ parseDecimalString (replaceChar '−' '-'
          (replaceChar ',' '.' (pyStrip "1e100".data))) = some (.finite ⟨1, 100⟩))
    ∧ (parse_coord (some "12345".data) = some (.finite ⟨12345000000, -6⟩)
      ∧ ¬ fitsNumeric96 ⟨12345000000, -6⟩)
    ∧ parse_coord (some "1_5".data) = some (.finite ⟨15000000, -6⟩) :=
  ⟨⟨by decide, fun d => by simp⟩, ⟨by decide, by decide⟩,
   ⟨by decide, by decide⟩, by decide⟩

set_option maxRecDepth 400000 in
/-- Witness of `parse_coord_quantization` at the input `"1,5"`. -/
theorem parse_coord_quantization_check :
    ∃ s, (some "1,5".data : Option (List Char)) = some s ∧
      ((∃ d₀ dq, parseDecimalString (replaceChar '−' '-'
            (replaceChar ',' '.' (pyStrip s))) = some (.finite d₀)
          ∧ (PyDecValue.finite ⟨1500000, -6⟩) = .finite dq
          ∧ dq.exp = -6
          ∧ dq.coeff = roundHalfUp (pyValue d₀ * 10 ^ 6)
          ∧ pyValue dq = (dq.coeff : ℚ) / 10 ^ 6
          ∧ (fitsNumeric96 dq ↔ |pyValue dq| < 1000))
       ∨ (∃ neg payload, parseDecimalString (replaceChar '−' '-'
            (replaceChar ',' '.' (pyStrip s))) = some (.nan false neg payload)
          ∧ (PyDecValue.finite ⟨1500000, -6⟩)
              = .nan false neg (payload % 10 ^ 28))) :=
  (parse_coord_quantization (some "1,5".data)).1 (.finite ⟨1500000, -6⟩)
    (by decide)
/-- C8: `enviar_formulario` inserts a row only when the stripped street
name, number and neighbourhood are all non-empty — and then the inserted
row carries exactly those stripped values — and redirects with a
validation error (inserting nothing) whenever any of the three is empty
after stripping; hence every persisted row has the three required fields
non-empty. -/
theorem enviar_formulario_required_fields (f : UrbanoForm) :
    (∀ row, enviar_formulario f = .inserted row →
      row.rua ≠ [] ∧ row.numero ≠ [] ∧ row.bairro ≠ []
      ∧ row.rua = pyStrip (f.nome_rua.getD [])
      ∧ row.numero = pyStrip (f.numero.getD [])
      ∧ row.bairro = pyStrip (f.bairro.getD []))
    ∧ (pyStrip (f.nome_rua.getD []) = [] ∨ pyStrip (f.numero.getD []) = []
        ∨ pyStrip (f.bairro.getD []) = [] →
      enviar_formulario f = .validationError) := by
  constructor
  · intro row h
    simp only [enviar_formulario] at h
    by_cases hc : pyStrip (f.nome_rua.getD []) = []
        ∨ pyStrip (f.numero.getD []) = [] ∨ pyStrip (f.bairro.getD []) = []
    · rw [if_pos hc] at h
      exact absurd h (by simp)
    · rw [if_neg hc] at h
      injection h with h
      subst h
      push_neg at hc
      exact ⟨hc.1, hc.2.1, hc.2.2, rfl, rfl, rfl⟩
  · intro hc
    simp only [enviar_formulario]
    rw [if_pos hc]

set_option maxRecDepth 400000 in
/-- Witness of `enviar_formulario_required_fields` on a complete
submission. -/
theorem enviar_formulario_required_fields_check :
    insertedRowEx.rua ≠ [] ∧ insertedRowEx.numero ≠ [] ∧ insertedRowEx.bairro ≠ []
    ∧ insertedRowEx.rua = pyStrip (formEx.nome_rua.getD [])
    ∧ insertedRowEx.numero = pyStrip (formEx.numero.getD [])
    ∧ insertedRowEx.bairro = pyStrip (formEx.bairro.getD []) :=
  (enviar_formulario_required_fields formEx).1 insertedRowEx (by decide)

/-- C4: when a specific talhão is selected and the shapefile loaded
(`usar_mascara` true), the masked surface keeps the interpolated value at
every grid cell whose centre lies inside the polygon and is NaN at every
cell outside it; when `'Todos'` is selected or the shapefile failed to
load — exactly the cases in which `usar_mascara` is false — the masked
surface equals the interpolated surface at every cell. -/
theorem polygon_masking (shp : Bool) (sel : List Char)
    (inPoly : ℚ → ℚ → Bool) (z : ℚ → ℚ → ℚ) (lon lat : ℚ) :
    (usar_mascara shp sel = true →
      (inPoly lon lat = true →
        z_masked (usar_mascara shp sel) (some inPoly) z lon lat = some (z lon lat))
      ∧ (inPoly lon lat = false →
        z_masked (usar_mascara shp sel) (some inPoly) z lon lat = none))
    ∧ (usar_mascara shp sel = false →
      ∀ poly, z_masked (usar_mascara shp sel) poly z lon lat = some (z lon lat))
    ∧ (usar_mascara shp sel = false ↔ shp = false ∨ sel = todosStr) := by
  refine ⟨?_, ?_, ?_⟩
  · intro hm
    rw [hm]
    constructor
    · intro hin
      simp [z_masked, maskAt, hin]
    · intro hin
      simp [z_masked, maskAt, hin]
  · intro hm poly
    rw [hm]
    cases poly <;> simp [z_masked, maskAt]
  · unfold usar_mascara
    cases shp <;> simp

/-- Witness of `polygon_masking` with masking on and the cell inside the
polygon. -/
theorem polygon_masking_check :
    z_masked (usar_mascara true "A".data) (some fun q _ => decide (0 ≤ q))
        (fun _ _ => (3 : ℚ)) 1 0 = some ((fun _ _ => (3 : ℚ)) 1 0) :=
  ((polygon_masking true "A".data (fun q _ => decide (0 ≤ q))
      (fun _ _ => (3 : ℚ)) 1 0).1 (by decide)).1 (by decide)

/-- C5: for every selected area other than `'Todas'` the neighbourhood
dropdown offers exactly the distinct `BAIRRO_COM` values of the rows
whose `AREA_y` equals the selected area, and for `'Todas'` it offers
every distinct `BAIRRO_COM` value of the loaded dataset. -/
theorem dependent_dropdown_options (rows : List PmsbRow) (area b : List Char) :
    (area ≠ todasStr →
      (b ∈ bairros_disponiveis rows area ↔
        ∃ r ∈ rows, r.area = area ∧ r.bairro = b))
    ∧ (b ∈ bairros_disponiveis rows todasStr ↔ ∃ r ∈ rows, r.bairro = b) := by
  constructor
  · intro h
    unfold bairros_disponiveis
    rw [if_pos h]
    constructor
    · intro hb
      rcases List.mem_map.mp (List.mem_dedup.mp hb) with ⟨r, hr, hrb⟩
      rcases List.mem_filter.mp hr with ⟨hr1, hr2⟩
      exact ⟨r, hr1, of_decide_eq_true hr2, hrb⟩
    · rintro ⟨r, hr, hra, hrb⟩
      exact List.mem_dedup.mpr (List.mem_map.mpr
        ⟨r, List.mem_filter.mpr ⟨hr, decide_eq_true hra⟩, hrb⟩)
  · unfold bairros_disponiveis
    rw [if_neg (by simp)]
    constructor
    · intro hb
      rcases List.mem_map.mp (List.mem_dedup.mp hb) with ⟨r, hr, hrb⟩
      exact ⟨r, hr, hrb⟩
    · rintro ⟨r, hr, hrb⟩
      exact List.mem_dedup.mpr (List.mem_map.mpr ⟨r, hr, hrb⟩)

/-- Witness of `dependent_dropdown_options` at the area `"Sede"`. -/
theorem dependent_dropdown_options_check :
    "Centro".data ∈ bairros_disponiveis pmsbRowsEx2 "Sede".data ↔
      ∃ r ∈ pmsbRowsEx2, r.area = "Sede".data ∧ r.bairro = "Centro".data :=
  (dependent_dropdown_options pmsbRowsEx2 "Sede".data "Centro".data).1 (by decide)

/-- C6: filtering only narrows — every row surviving the talhão filter is
a loaded row and satisfies the case-insensitive substring predicate when
a talhão is selected, every row surviving the PMSB filter is a loaded row
satisfying equality on `AREA_y` and membership in the selected
neighbourhoods when those are selected, and the all-pass selections
(`'Todos'`, resp. `'Todas'` with no neighbourhood chosen) leave the
dataset unchanged. -/
theorem filtering_only_narrows :
    (∀ (rows : List AgroRow) (sel : List Char) (r : AgroRow),
      r ∈ df_filtrado rows sel →
        r ∈ rows ∧ (sel ≠ todosStr → containsCI sel r.talhao = true))
    ∧ (∀ rows : List AgroRow, df_filtrado rows todosStr = rows)
    ∧ (∀ (rows : List PmsbRow) (area : List Char) (bsel : List (List Char))
        (r : PmsbRow),
      r ∈ pmsbFilter rows area bsel →
        r ∈ rows ∧ (area ≠ todasStr → r.area = area)
          ∧ (bsel ≠ [] → r.bairro ∈ bsel))
    ∧ (∀ rows : List PmsbRow, pmsbFilter rows todasStr [] = rows) := by
  refine ⟨?_, ?_, ?_, ?_⟩
  · intro rows sel r hr
    unfold df_filtrado at hr
    by_cases hs : sel = todosStr
    · rw [if_pos hs] at hr
      exact ⟨hr, fun h => absurd hs h⟩
    · rw [if_neg hs] at hr
      rcases List.mem_filter.mp hr with ⟨h1, h2⟩
      exact ⟨h1, fun _ => h2⟩
  · intro rows
    unfold df_filtrado
    rw [if_pos rfl]
  · intro rows area bsel r hr
    simp only [pmsbFilter] at hr
    by_cases hb : bsel = []
    · rw [if_pos hb] at hr
      by_cases ha : area = todasStr
      · rw [if_pos ha] at hr
        exact ⟨hr, fun h => absurd ha h, fun h => absurd hb h⟩
      · rw [if_neg ha] at hr
        rcases List.mem_filter.mp hr with ⟨h1, h2⟩
        exact ⟨h1, fun _ => of_decide_eq_true h2, fun h => absurd hb h⟩
    · rw [if_neg hb] at hr
      rcases List.mem_filter.mp hr with ⟨hr, h3⟩
      by_cases ha : area = todasStr
      · rw [if_pos ha] at hr
        exact ⟨hr, fun h => absurd ha h, fun _ => of_decide_eq_true h3⟩
      · rw [if_neg ha] at hr
        rcases List.mem_filter.mp hr with ⟨h1, h2⟩
        exact ⟨h1, fun _ => of_decide_eq_true h2, fun _ => of_decide_eq_true h3⟩
  · intro rows
    simp [pmsbFilter]

/-- Witness of `filtering_only_narrows` on the PMSB filter with a
selected area and one selected neighbourhood. -/
theorem filtering_only_narrows_check :
    (⟨"Sede".data, "Centro".data⟩ : PmsbRow) ∈ pmsbRowsEx
    ∧ ("Sede".data ≠ todasStr →
        (⟨"Sede".data, "Centro".data⟩ : PmsbRow).area = "Sede".data)
    ∧ (["Centro".data] ≠ ([] : List (List Char)) →
        (⟨"Sede".data, "Centro".data⟩ : PmsbRow).bairro ∈ ["Centro".data]) :=
  filtering_only_narrows.2.2.1 pmsbRowsEx "Sede".data ["Centro".data]
    ⟨"Sede".data, "Centro".data⟩ (by decide)

/-- Auxiliary: `fillna` satisfies the fill specification. -/
theorem fillNI_fillsWith (o : Option (List Char)) : fillsWith o (fillNI o) := by
  cases o <;> simp [fillsWith, fillNI]

/-- Auxiliary: the last character of a stripped string is not whitespace. -/
theorem pyStrip_getLast?_not_space (l : List Char) (x : Char)
    (h : (pyStrip l).getLast? = some x) : pySpace x = false := by
  unfold pyStrip at h
  rw [List.getLast?_reverse] at h
  exact dropWhile_head?_not pySpace _ x h

/-- Auxiliary: the first character of a stripped string is not whitespace. -/
theorem pyStrip_head?_not_space (l : List Char) (x : Char)
    (h : (pyStrip l).head? = some x) : pySpace x = false := by
  unfold pyStrip at h
  rw [List.head?_reverse] at h
  have hX : ((l.dropWhile pySpace).reverse).dropWhile pySpace ≠ [] := by
    intro hnil
    rw [hnil] at h
    simp at h
  rcases List.dropWhile_suffix (l := (l.dropWhile pySpace).reverse)
      (p := pySpace) with ⟨t, ht⟩
  have hY : ((l.dropWhile pySpace).reverse).getLast? = some x := by
    conv_lhs => rw [← ht]
    rw [List.getLast?_append_of_ne_nil _ hX]
    exact h
  rw [List.getLast?_reverse] at hY
  exact dropWhile_head?_not pySpace _ x hY

/-- C7 (amended): the drainage loader fills every one of its eight text
columns with the sentinel (missing entries become `'Não informado'`,
present entries are kept, and the loaded row carries no missing text
value by construction); the water loader fills only `AREA_y` and
`BAIRRO_COM` and passes the chart columns through unchanged; and the
Excel loaders strip the column names, which therefore carry no leading
or trailing whitespace. -/
theorem loader_normalization :
    (∀ r : DrenRow,
      fillsWith r.area (load_data_row r).area
      ∧ fillsWith r.bairro (load_data_row r).bairro
      ∧ fillsWith r.label21 (load_data_row r).label21
      ∧ fillsWith r.labelQ22 (load_data_row r).labelQ22
      ∧ fillsWith r.labelQ23 (load_data_row r).labelQ23
      ∧ fillsWith r.labelQ24 (load_data_row r).labelQ24
      ∧ fillsWith r.labelQ25 (load_data_row r).labelQ25
      ∧ fillsWith r.labelQ26 (load_data_row r).labelQ26)
    ∧ (∀ r : AguaRow,
      fillsWith r.area (load_poligonos_row r).area
      ∧ fillsWith r.bairro (load_poligonos_row r).bairro
      ∧ (load_poligonos_row r).labelQ5 = r.labelQ5)
    ∧ (∀ (cols : List (List Char)) (c : List Char), c ∈ strippedColumns cols →
      (∀ x, c.head? = some x → pySpace x = false)
      ∧ (∀ x, c.getLast? = some x → pySpace x = false)) := by
  refine ⟨?_, ?_, ?_⟩
  · intro r
    exact ⟨fillNI_fillsWith _, fillNI_fillsWith _, fillNI_fillsWith _,
      fillNI_fillsWith _, fillNI_fillsWith _, fillNI_fillsWith _,
      fillNI_fillsWith _, fillNI_fillsWith _⟩
  · intro r
    refine ⟨?_, ?_, rfl⟩
    · cases hr : r.area <;> simp [load_poligonos_row, fillsWith, hr]
    · cases hr : r.bairro <;> simp [load_poligonos_row, fillsWith, hr]
  · intro cols c hc
    rcases List.mem_map.mp hc with ⟨c0, _, rfl⟩
    exact ⟨pyStrip_head?_not_space c0, pyStrip_getLast?_not_space c0⟩

/-- C7 counterexample to the claim as stated: the water loader leaves a
missing `LABEL_Q5` entry missing — it is not replaced by the sentinel. -/
theorem loader_fill_counterexample :
    (load_poligonos_row ⟨some "Sede".data, some "Centro".data, none⟩).labelQ5 = none
    ∧ (load_poligonos_row ⟨some "Sede".data, some "Centro".data, none⟩).labelQ5
        ≠ some naoInformado :=
  ⟨rfl, by decide⟩

/-- Witness of `loader_normalization` on a concrete stripped column
name. -/
theorem loader_normalization_check :
    (∀ x, (pyStrip " Fazenda ".data).head? = some x → pySpace x = false)
    ∧ (∀ x, (pyStrip " Fazenda ".data).getLast? = some x → pySpace x = false) :=
  loader_normalization.2.2 [" Fazenda ".data] (pyStrip " Fazenda ".data)
    (by decide)

/-- Auxiliary: when the coordinate pairs are pairwise distinct, mapping
the per-group mean over the keys returns exactly the value list. -/
theorem map_groupMean_of_nodup (pts : List (ℚ × ℚ × ℚ)) :
    (pts.map aggKey).Nodup →
    (pts.map aggKey).map (groupMean pts) = pts.map aggVal := by
  induction pts with
  | nil => intro _; simp
  | cons p pts ih =>
    intro h
    rw [List.map_cons] at h
    rcases List.nodup_cons.mp h with ⟨hp, htail⟩
    rw [List.map_cons, List.map_cons, List.map_cons]
    congr 1
    · simp only [groupMean]
      have htailnil : pts.filter (fun q => decide (aggKey q = aggKey p)) = [] := by
        rw [List.filter_eq_nil_iff]
        intro q hq
        simp only [decide_eq_true_eq]
        intro hEq
        exact hp (hEq ▸ List.mem_map_of_mem aggKey hq)
      rw [List.filter_cons, if_pos (by simp), htailnil]
      simp
    · rw [← ih htail]
      apply List.map_congr_left
      intro k hk
      simp only [groupMean]
      rw [List.filter_cons, if_neg]
      intro hc
      exact hp ((of_decide_eq_true hc) ▸ hk)

/-- C3 (amended): the displayed summary statistics are computed over the
per-coordinate mean-aggregated element values of the filtered and
cleaned subset; whenever the cleaned rows carry pairwise distinct
coordinate pairs, that aggregated list is exactly the subset's
element-value list, so each displayed statistic (count, maximum,
minimum, mean, standard deviation) then equals the statistic of the
filtered subset itself. -/
theorem summary_stats_over_aggregated (rows : List AgroRow) (sel : List Char)
    (h : ((cleanPoints (df_filtrado rows sel)).map aggKey).Nodup) :
    valores rows sel = (cleanPoints (df_filtrado rows sel)).map aggVal
    ∧ pontosValidos rows sel = (cleanPoints (df_filtrado rows sel)).length
    ∧ nanmaxL (valores rows sel)
        = nanmaxL ((cleanPoints (df_filtrado rows sel)).map aggVal)
    ∧ nanminL (valores rows sel)
        = nanminL ((cleanPoints (df_filtrado rows sel)).map aggVal)
    ∧ nanmeanL (valores rows sel)
        = nanmeanL ((cleanPoints (df_filtrado rows sel)).map aggVal)
    ∧ nanstdSq (valores rows sel)
        = nanstdSq ((cleanPoints (df_filtrado rows sel)).map aggVal) := by
  have key : valores rows sel = (cleanPoints (df_filtrado rows sel)).map aggVal := by
    unfold valores valoresAgregados
    rw [List.dedup_eq_self.mpr h]
    exact map_groupMean_of_nodup _ h
  refine ⟨key, ?_, by rw [key], by rw [key], by rw [key], by rw [key]⟩
  unfold pontosValidos
  rw [key, List.length_map]

set_option maxRecDepth 400000 in
/-- C3 counterexample to the claim as stated: with two cleaned rows
sharing a coordinate pair, the displayed statistics are taken over the
two aggregated means `[1, 1]`, not over the three subset values
`[0, 2, 1]` — the displayed point count and maximum disagree with the
filtered subset's. -/
theorem summary_stats_counterexample :
    valores exRows todosStr = [1, 1]
    ∧ (cleanPoints (df_filtrado exRows todosStr)).map aggVal = [0, 2, 1]
    ∧ pontosValidos exRows todosStr
        ≠ (cleanPoints (df_filtrado exRows todosStr)).length
    ∧ nanmaxL (valores exRows todosStr)
        ≠ nanmaxL ((cleanPoints (df_filtrado exRows todosStr)).map aggVal) :=
  ⟨by decide, by decide, by decide, by decide⟩

set_option maxRecDepth 400000 in
/-- Witness of `summary_stats_over_aggregated` on a dataset with
pairwise distinct coordinate pairs. -/
theorem summary_stats_over_aggregated_check :
    valores exRowsDistinct todosStr
        = (cleanPoints (df_filtrado exRowsDistinct todosStr)).map aggVal
    ∧ pontosValidos exRowsDistinct todosStr
        = (cleanPoints (df_filtrado exRowsDistinct todosStr)).length
    ∧ nanmaxL (valores exRowsDistinct todosStr)
        = nanmaxL ((cleanPoints (df_filtrado exRowsDistinct todosStr)).map aggVal)
    ∧ nanminL (valores exRowsDistinct todosStr)
        = nanminL ((cleanPoints (df_filtrado exRowsDistinct todosStr)).map aggVal)
    ∧ nanmeanL (valores exRowsDistinct todosStr)
        = nanmeanL ((cleanPoints (df_filtrado exRowsDistinct todosStr)).map aggVal)
    ∧ nanstdSq (valores exRowsDistinct todosStr)
        = nanstdSq ((cleanPoints (df_filtrado exRowsDistinct todosStr)).map aggVal) :=
  summary_stats_over_aggregated exRowsDistinct todosStr (by decide)

/-- C9: the hand-written IDW interpolation is a convex combination of the
sample values — for a non-empty sample list and a positive `eps` offset,
every lower bound of the sample values (in particular their minimum)
bounds the interpolated value from below, and every upper bound (in
particular their maximum) bounds it from above: the weights are strictly
positive thanks to `eps` and are normalised by their sum. -/
theorem idw_convex_combination (pts : List (ℝ × ℝ × ℝ)) (xi yi : ℝ)
    (power : ℕ) (eps : ℝ) (hne : pts ≠ []) (heps : 0 < eps)
    (m M : ℝ) (hm : ∀ p ∈ pts, m ≤ p.2.2) (hM : ∀ p ∈ pts, p.2.2 ≤ M) :
    m ≤ idw_interpolation pts xi yi power eps
    ∧ idw_interpolation pts xi yi power eps ≤ M := by
  have hwpos : ∀ p ∈ pts, 0 < idwWeight xi yi power eps p := by
    intro p _
    unfold idwWeight
    have hbase : 0 < Real.sqrt ((xi - p.1) ^ 2 + (yi - p.2.1) ^ 2) + eps :=
      add_pos_of_nonneg_of_pos (Real.sqrt_nonneg _) heps
    exact div_pos one_pos (pow_pos hbase power)
  have hsum : 0 < (pts.map (idwWeight xi yi power eps)).sum := by
    apply List.sum_pos
    · intro w hw
      rcases List.mem_map.mp hw with ⟨p, hp, rfl⟩
      exact hwpos p hp
    · simpa using hne
  constructor
  · rw [idw_interpolation, le_div_iff₀ hsum, ← List.sum_map_mul_left]
    apply List.sum_le_sum
    intro p hp
    rw [mul_comm]
    exact mul_le_mul_of_nonneg_left (hm p hp) (le_of_lt (hwpos p hp))
  · rw [idw_interpolation, div_le_iff₀ hsum, ← List.sum_map_mul_left]
    apply List.sum_le_sum
    intro p hp
    rw [mul_comm M (idwWeight xi yi power eps p)]
    exact mul_le_mul_of_nonneg_left (hM p hp) (le_of_lt (hwpos p hp))

/-- Witness of `idw_convex_combination` on a single sample point. -/
theorem idw_convex_combination_check :
    (5 : ℝ) ≤ idw_interpolation [((0 : ℝ), (0 : ℝ), (5 : ℝ))] 0 0 2 1
    ∧ idw_interpolation [((0 : ℝ), (0 : ℝ), (5 : ℝ))] 0 0 2 1 ≤ 5 :=
  idw_convex_combination [((0 : ℝ), (0 : ℝ), (5 : ℝ))] 0 0 2 1
    (by simp) one_pos 5 5
    (by intro p hp; rw [List.mem_singleton.mp hp])
    (by intro p hp; rw [List.mem_singleton.mp hp])
